import Mathlib

/-!
Shallow embedding of `ftp_file_sender_rust`: a command-line tool that uploads
one local file to an FTP server.  The repository has two variants of the
orchestration sequence:

* `FtpSender::send_file` in `src/ftp_sender.rs` (Policy A: CWD, creating the
  remote folder when the first CWD fails, then STOR of the bare file name);
* `send_file_over_ftp` in `src/main.rs` (Policy B: no CWD/MKD, STOR of
  `target_folder` joined with the file's base name, after reading the 220
  greeting non-fatally).

External collaborators (the filesystem and the third-party FTP client) are
modelled as oracles that decide the outcome of each call; each variant is a
pure function from those oracles to a result together with the trace of
commands issued on the network, in program order.
-/

namespace FtpFileSender

/-- Model of an `f64` timeout argument: either a non-finite value or a finite
real number (represented as a rational). -/
inductive F64 where
  | nan
  | posInf
  | negInf
  | finite (q : ℚ)
deriving DecidableEq, Repr

/-- Model of `std::time::Duration` as its length in seconds. -/
abbrev Duration := ℚ

/-- `Duration::from_secs_f64` panics unless the value is finite, non-negative
and small enough to represent as a `Duration` (seconds below `2^64`);
`none` models the panic. -/
def Duration.fromSecsF64? : F64 → Option Duration
  | .finite q => if 0 ≤ q ∧ q < 2 ^ 64 then some q else none
  | _ => none

/-- The timeout values on which `Duration::from_secs_f64` does not panic. -/
def durationRepresentable : F64 → Bool
  | .finite q => decide (0 ≤ q ∧ q < 2 ^ 64)
  | _ => false

/-- Errors a run can surface (each constructor corresponds to one fallible
call site whose error is propagated with `?` or built with `format!`). -/
inductive FtpError where
  | canonicalizeError
  | notAFile (sourcePath : String)
  | fileNameError
  | connectError
  | setTimeoutError
  | loginError
  | mkdirError
  | cwdError
  | openError
  | putError
  | quitError
deriving DecidableEq, Repr

/-- Result of one invocation: `Ok(())`, a propagated error, or a panic
(`Duration::from_secs_f64` aborting). -/
inductive RunResult where
  | ok
  | error (e : FtpError)
  | panicked
deriving DecidableEq, Repr

/-- Commands issued on (or attempted against) the network, in program order. -/
inductive Event where
  | connect (addr : String)
  | setReadTimeout (d : Duration)
  | setWriteTimeout (d : Duration)
  | readGreeting
  | login (user pass : String)
  | cwd (folder : String)
  | mkd (folder : String)
  | stor (path : String)
  | quit
deriving DecidableEq, Repr

/-- Filesystem oracle: `std::fs::canonicalize` (`none` models the `Err` case),
`Path::is_file` on the canonical path, and whether `File::open` succeeds. -/
structure FileSystem where
  canonicalize : String → Option String
  isFile : String → Bool
  openOk : String → Bool

/-- Network oracle: decides the outcome of each call into the `ftp` crate and
the socket.  The two `cwd` fields give the outcomes of the first `CWD` and of
the `CWD` retried after `MKD` (the server state may have changed in between).
`greeting` is the `read_response(220)` outcome, `none` being failure. -/
structure NetOracle where
  connectOk : String → Bool
  setReadTimeoutOk : Bool
  setWriteTimeoutOk : Bool
  greeting : Option String
  loginOk : String → String → Bool
  cwdOk : String → Bool
  mkdirOk : String → Bool
  cwdAfterMkdirOk : String → Bool
  putOk : String → Bool
  quitOk : Bool

/-- Split a character list at every `/` (structurally recursive analogue of
splitting a path string on the separator). -/
def splitOnSlash : List Char → List (List Char)
  | [] => [[]]
  | c :: cs =>
    match splitOnSlash cs with
    | [] => [[c]]
    | h :: t => if c = '/' then [] :: h :: t else (c :: h) :: t

/-- `Path::file_name` on Unix: the last component after dropping empty and
`.` components; `none` when there is none or when it is `..`. -/
def fileName (path : String) : Option String :=
  let comps :=
    (splitOnSlash path.data).filter (fun c => c ≠ [] ∧ c ≠ ['.'])
  match comps.getLast? with
  | none => none
  | some c => if c = ['.', '.'] then none else some (String.mk c)

/-- `Path::new(base).join(child)` on Unix: an absolute `child` replaces
`base`; otherwise the two are concatenated with a single separator. -/
def joinPath (base child : String) : String :=
  if child.data.head? = some '/' then child
  else if base = "" then child
  else if base.data.getLast? = some '/' then base ++ child
  else base ++ "/" ++ child

/-- Credential selection shared by both variants: a provided pair is used
only when both parts are present, otherwise the literal anonymous pair. -/
def effectiveCreds (username password : Option String) : String × String :=
  match username, password with
  | some u, some p => (u, p)
  | _, _ => ("anonymous", "anonymous")

/-- The struct built by `FtpSender::new` (`src/ftp_sender.rs`). -/
structure FtpSender where
  host : String
  port : Nat
  timeout : Duration
  username : Option String
  password : Option String
deriving DecidableEq, Repr

/-- `FtpSender::new`: converts the timeout with `Duration::from_secs_f64`
(which can panic, modelled by `none`) and stores the fields. -/
def FtpSender.new (host : String) (port : Nat) (timeout_secs : F64)
    (username password : Option String) : Option FtpSender :=
  match Duration.fromSecsF64? timeout_secs with
  | none => none
  | some d =>
      some { host := host, port := port, timeout := d,
             username := username, password := password }

/-- `FtpSender::ensure_remote_folder_exists`: try `CWD folder`; on failure
`MKD folder` then `CWD folder` again, each propagating its error. -/
def ensure_remote_folder_exists (net : NetOracle) (folder : String) :
    Except FtpError Unit × List Event :=
  if net.cwdOk folder then
    (.ok (), [.cwd folder])
  else if net.mkdirOk folder = false then
    (.error .mkdirError, [.cwd folder, .mkd folder])
  else if net.cwdAfterMkdirOk folder = false then
    (.error .cwdError, [.cwd folder, .mkd folder, .cwd folder])
  else
    (.ok (), [.cwd folder, .mkd folder, .cwd folder])

/-- `FtpSender::send_file` (`src/ftp_sender.rs`): canonicalize and check the
source, take its file name, connect, set both socket timeouts, log in,
ensure the remote folder, open the local file, `STOR` the bare file name,
then `QUIT`, every failure propagating with `?`. -/
def FtpSender.send_file (s : FtpSender) (fs : FileSystem) (net : NetOracle)
    (source_file_path target_folder : String) : RunResult × List Event :=
  match fs.canonicalize source_file_path with
  | none => (.error .canonicalizeError, [])
  | some source_path =>
    if fs.isFile source_path = false then
      (.error (.notAFile source_file_path), [])
    else
      match fileName source_path with
      | none => (.error .fileNameError, [])
      | some filename =>
        if net.connectOk (s.host ++ ":" ++ toString s.port) = false then
          (.error .connectError,
            [.connect (s.host ++ ":" ++ toString s.port)])
        else if net.setReadTimeoutOk = false then
          (.error .setTimeoutError,
            [.connect (s.host ++ ":" ++ toString s.port),
             .setReadTimeout s.timeout])
        else if net.setWriteTimeoutOk = false then
          (.error .setTimeoutError,
            [.connect (s.host ++ ":" ++ toString s.port),
             .setReadTimeout s.timeout, .setWriteTimeout s.timeout])
        else if net.loginOk (effectiveCreds s.username s.password).1
            (effectiveCreds s.username s.password).2 = false then
          (.error .loginError,
            [.connect (s.host ++ ":" ++ toString s.port),
             .setReadTimeout s.timeout, .setWriteTimeout s.timeout,
             .login (effectiveCreds s.username s.password).1
               (effectiveCreds s.username s.password).2])
        else
          match (ensure_remote_folder_exists net target_folder).1 with
          | .error e =>
              (.error e,
                [.connect (s.host ++ ":" ++ toString s.port),
                 .setReadTimeout s.timeout, .setWriteTimeout s.timeout,
                 .login (effectiveCreds s.username s.password).1
                   (effectiveCreds s.username s.password).2]
                  ++ (ensure_remote_folder_exists net target_folder).2)
          | .ok _ =>
            if fs.openOk source_path = false then
              (.error .openError,
                [.connect (s.host ++ ":" ++ toString s.port),
                 .setReadTimeout s.timeout, .setWriteTimeout s.timeout,
                 .login (effectiveCreds s.username s.password).1
                   (effectiveCreds s.username s.password).2]
                  ++ (ensure_remote_folder_exists net target_folder).2)
            else if net.putOk filename = false then
              (.error .putError,
                [.connect (s.host ++ ":" ++ toString s.port),
                 .setReadTimeout s.timeout, .setWriteTimeout s.timeout,
                 .login (effectiveCreds s.username s.password).1
                   (effectiveCreds s.username s.password).2]
                  ++ (ensure_remote_folder_exists net target_folder).2
                  ++ [.stor filename])
            else if net.quitOk = false then
              (.error .quitError,
                [.connect (s.host ++ ":" ++ toString s.port),
                 .setReadTimeout s.timeout, .setWriteTimeout s.timeout,
                 .login (effectiveCreds s.username s.password).1
                   (effectiveCreds s.username s.password).2]
                  ++ (ensure_remote_folder_exists net target_folder).2
                  ++ [.stor filename, .quit])
            else
              (.ok,
                [.connect (s.host ++ ":" ++ toString s.port),
                 .setReadTimeout s.timeout, .setWriteTimeout s.timeout,
                 .login (effectiveCreds s.username s.password).1
                   (effectiveCreds s.username s.password).2]
                  ++ (ensure_remote_folder_exists net target_folder).2
                  ++ [.stor filename, .quit])

/-- The tail of `send_file_over_ftp` from the login onward (the code after
the greeting `match`, whose two arms join here): log in, open the local
file, `STOR` the joined target path, then `QUIT`.  Returns the result and
the events issued from the login on. -/
def loginAndTransfer (fs : FileSystem) (net : NetOracle)
    (source_path target_file_path : String)
    (username password : Option String) : RunResult × List Event :=
  if net.loginOk (effectiveCreds username password).1
      (effectiveCreds username password).2 = false then
    (.error .loginError,
      [.login (effectiveCreds username password).1
        (effectiveCreds username password).2])
  else if fs.openOk source_path = false then
    (.error .openError,
      [.login (effectiveCreds username password).1
        (effectiveCreds username password).2])
  else if net.putOk target_file_path = false then
    (.error .putError,
      [.login (effectiveCreds username password).1
        (effectiveCreds username password).2, .stor target_file_path])
  else if net.quitOk = false then
    (.error .quitError,
      [.login (effectiveCreds username password).1
        (effectiveCreds username password).2, .stor target_file_path,
       .quit])
  else
    (.ok,
      [.login (effectiveCreds username password).1
        (effectiveCreds username password).2, .stor target_file_path,
       .quit])

/-- `send_file_over_ftp` (`src/main.rs`): canonicalize and check the source,
join `target_folder` with the file's base name, convert the timeout (a panic
point), connect, set both socket timeouts, read the 220 greeting (a `match`
whose two arms only log, then join), log in, open the local file, `STOR`
the joined path, then `QUIT`, every failure propagating with `?`. -/
def send_file_over_ftp (fs : FileSystem) (net : NetOracle)
    (host source_file_path target_folder : String) (port : Nat)
    (timeout_secs : F64) (username password : Option String) :
    RunResult × List Event :=
  match fs.canonicalize source_file_path with
  | none => (.error .canonicalizeError, [])
  | some source_path =>
    if fs.isFile source_path = false then
      (.error (.notAFile source_file_path), [])
    else
      match fileName source_path with
      | none => (.error .fileNameError, [])
      | some filename =>
        match Duration.fromSecsF64? timeout_secs with
        | none => (.panicked, [])
        | some timeout =>
          if net.connectOk (host ++ ":" ++ toString port) = false then
            (.error .connectError,
              [.connect (host ++ ":" ++ toString port)])
          else if net.setReadTimeoutOk = false then
            (.error .setTimeoutError,
              [.connect (host ++ ":" ++ toString port),
               .setReadTimeout timeout])
          else if net.setWriteTimeoutOk = false then
            (.error .setTimeoutError,
              [.connect (host ++ ":" ++ toString port),
               .setReadTimeout timeout, .setWriteTimeout timeout])
          else
            match net.greeting with
            | some _ =>
              ((loginAndTransfer fs net source_path
                  (joinPath target_folder filename) username password).1,
               [.connect (host ++ ":" ++ toString port),
                .setReadTimeout timeout, .setWriteTimeout timeout,
                .readGreeting]
                 ++ (loginAndTransfer fs net source_path
                      (joinPath target_folder filename) username password).2)
            | none =>
              ((loginAndTransfer fs net source_path
                  (joinPath target_folder filename) username password).1,
               [.connect (host ++ ":" ++ toString port),
                .setReadTimeout timeout, .setWriteTimeout timeout,
                .readGreeting]
                 ++ (loginAndTransfer fs net source_path
                      (joinPath target_folder filename) username password).2)

/-- The two error shapes the source-validation step can produce: the
propagated `canonicalize` error or the formatted not-a-file message. -/
def isInvalidSource : RunResult → Bool
  | .error .canonicalizeError => true
  | .error (.notAFile _) => true
  | _ => false

/-- Events that are protocol exchanges with the server (everything past the
connection setup and the socket-timeout configuration). -/
def protoExchange : Event → Bool
  | .connect _ => false
  | .setReadTimeout _ => false
  | .setWriteTimeout _ => false
  | _ => true

/-- Directory-change or directory-create commands (`CWD`/`MKD`). -/
def isDirCommand : Event → Bool
  | .cwd _ => true
  | .mkd _ => true
  | _ => false

/-! Concrete fixtures used by witnesses and counterexamples.  The filesystem
knows two source paths: a plain file `f.txt` and a symlink `link.txt` whose
canonical form is `/data/target.txt`. -/

/-- A filesystem on which canonicalization succeeds for `f.txt` (a regular
file) and for `link.txt` (a symlink resolving to `/data/target.txt`). -/
def okFs : FileSystem where
  canonicalize := fun p =>
    if p = "f.txt" then some "/home/u/f.txt"
    else if p = "link.txt" then some "/data/target.txt"
    else none
  isFile := fun p => p == "/home/u/f.txt" || p == "/data/target.txt"
  openOk := fun _ => true

/-- A filesystem on which canonicalization fails for every path. -/
def badFs : FileSystem where
  canonicalize := fun _ => none
  isFile := fun _ => false
  openOk := fun _ => false

/-- A filesystem on which `d` canonicalizes to a directory (not a file). -/
def dirFs : FileSystem where
  canonicalize := fun p => if p = "d" then some "/home/u/d" else none
  isFile := fun _ => false
  openOk := fun _ => false

/-- A server on which every operation succeeds. -/
def okNet : NetOracle where
  connectOk := fun _ => true
  setReadTimeoutOk := true
  setWriteTimeoutOk := true
  greeting := some "220 welcome"
  loginOk := fun _ _ => true
  cwdOk := fun _ => true
  mkdirOk := fun _ => true
  cwdAfterMkdirOk := fun _ => true
  putOk := fun _ => true
  quitOk := true

/-- Everything succeeds except the final `QUIT`. -/
def quitFailNet : NetOracle := { okNet with quitOk := false }

/-- The server rejects every login. -/
def loginFailNet : NetOracle := { okNet with loginOk := fun _ _ => false }

/-- The target folder is absent: the first `CWD` fails, `MKD` and the second
`CWD` succeed. -/
def cwdFailNet : NetOracle := { okNet with cwdOk := fun _ => false }

/-- The target folder is absent and `MKD` fails too. -/
def mkdFailNet : NetOracle :=
  { okNet with cwdOk := fun _ => false, mkdirOk := fun _ => false }

/-- Every `STOR` is rejected. -/
def putFailNet : NetOracle := { okNet with putOk := fun _ => false }

/-- Reading the 220 greeting fails. -/
def noGreetNet : NetOracle := { okNet with greeting := none }

/-- A sender with full credentials. -/
def sampleSender : FtpSender where
  host := "h"
  port := 21
  timeout := 30
  username := some "u"
  password := some "p"

/-- A sender with no credentials. -/
def anonSender : FtpSender where
  host := "h"
  port := 21
  timeout := 30
  username := none
  password := none

/-! Helper lemmas about the traces of the two variants. -/

/-- Every event issued by `ensure_remote_folder_exists` is a `CWD` or a
`MKD` of the requested folder. -/
theorem mem_ensure_trace (net : NetOracle) (f : String) (e : Event)
    (h : e ∈ (ensure_remote_folder_exists net f).2) :
    e = .cwd f ∨ e = .mkd f := by
  unfold ensure_remote_folder_exists at h
  repeat' split at h
  all_goals (simp_all; try tauto)

/-- Any login event issued by `FtpSender::send_file` carries the effective
credentials of the sender. -/
theorem send_file_login_creds (s : FtpSender) (fs : FileSystem)
    (net : NetOracle) (p tf : String) (u1 v1 : String)
    (h : Event.login u1 v1 ∈ (FtpSender.send_file s fs net p tf).2) :
    (u1, v1) = effectiveCreds s.username s.password := by
  unfold FtpSender.send_file at h
  repeat' split at h
  all_goals simp at h
  all_goals
    first
    | (rcases h with ⟨h1, h2⟩ | hm
       · exact Prod.ext h1 h2
       · rcases mem_ensure_trace _ _ _ hm with hx | hx <;> simp_all)
    | (obtain ⟨h1, h2⟩ := h
       exact Prod.ext h1 h2)

/-- Any login event issued by `loginAndTransfer` carries the effective
credentials passed to it. -/
theorem loginAndTransfer_login_creds (fs : FileSystem) (net : NetOracle)
    (sp tp : String) (u v : Option String) (u1 v1 : String)
    (h : Event.login u1 v1 ∈ (loginAndTransfer fs net sp tp u v).2) :
    (u1, v1) = effectiveCreds u v := by
  unfold loginAndTransfer at h
  repeat' split at h
  all_goals (simp at h; obtain ⟨h1, h2⟩ := h; simp [h1, h2])

/-- Every event issued by `loginAndTransfer` is the login, the store of the
given target path, or the quit. -/
theorem mem_loginAndTransfer_trace (fs : FileSystem) (net : NetOracle)
    (sp tp : String) (u v : Option String) (e : Event)
    (h : e ∈ (loginAndTransfer fs net sp tp u v).2) :
    e = .login (effectiveCreds u v).1 (effectiveCreds u v).2 ∨
      e = .stor tp ∨ e = .quit := by
  unfold loginAndTransfer at h
  repeat' split at h
  all_goals (simp_all; try tauto)

/-- Any login event issued by `send_file_over_ftp` carries the effective
credentials passed to it. -/
theorem send_file_over_ftp_login_creds (fs : FileSystem) (net : NetOracle)
    (host p tf : String) (port : Nat) (t : F64) (u v : Option String)
    (u1 v1 : String)
    (h : Event.login u1 v1 ∈
      (send_file_over_ftp fs net host p tf port t u v).2) :
    (u1, v1) = effectiveCreds u v := by
  unfold send_file_over_ftp at h
  repeat' split at h
  all_goals
    first
    | (simp_all; done)
    | (simp at h
       exact loginAndTransfer_login_creds _ _ _ _ _ _ _ _ h)

/-- If the first `CWD` succeeds, `ensure_remote_folder_exists` succeeds and
issues only that `CWD`. -/
theorem ensure_trace_cwd_exists (net : NetOracle) (f : String)
    (h : net.cwdOk f = true) :
    ensure_remote_folder_exists net f = (.ok (), [.cwd f]) := by
  simp [ensure_remote_folder_exists, h]

/-- Any store event issued by `FtpSender::send_file` stores the base name of
the canonicalized source path. -/
theorem send_file_stor_name (s : FtpSender) (fs : FileSystem)
    (net : NetOracle) (p tf q : String)
    (h : Event.stor q ∈ (FtpSender.send_file s fs net p tf).2) :
    ∃ sp, fs.canonicalize p = some sp ∧ fileName sp = some q := by
  unfold FtpSender.send_file at h
  repeat' split at h
  all_goals simp at h
  all_goals
    first
    | (exact absurd (mem_ensure_trace _ _ _ h) (by simp))
    | (rcases h with h | h <;>
       first
       | (subst h; exact ⟨_, by assumption, by assumption⟩)
       | (exact absurd (mem_ensure_trace _ _ _ h) (by simp)))

/-- `FtpSender::send_file` never issues a store unless the server accepted
the login with the effective credentials. -/
theorem send_file_stor_needs_login (s : FtpSender) (fs : FileSystem)
    (net : NetOracle) (p tf q : String)
    (h : Event.stor q ∈ (FtpSender.send_file s fs net p tf).2) :
    net.loginOk (effectiveCreds s.username s.password).1
      (effectiveCreds s.username s.password).2 = true := by
  unfold FtpSender.send_file at h
  repeat' split at h
  all_goals simp at h
  all_goals
    first
    | simp_all
    | (exact absurd (mem_ensure_trace _ _ _ h) (by simp))
    | (rcases h with h | h <;>
       first
       | simp_all
       | (exact absurd (mem_ensure_trace _ _ _ h) (by simp)))

/-- When the target folder already exists on the server (the first `CWD`
succeeds), `FtpSender::send_file` never issues a `MKD`. -/
theorem send_file_no_mkd (s : FtpSender) (fs : FileSystem) (net : NetOracle)
    (p tf : String) (hcw : net.cwdOk tf = true) (f : String)
    (h : Event.mkd f ∈ (FtpSender.send_file s fs net p tf).2) : False := by
  unfold FtpSender.send_file at h
  repeat' split at h
  all_goals simp [ensure_trace_cwd_exists net tf hcw] at h

/-- Any store event issued by `loginAndTransfer` stores the given target
path. -/
theorem loginAndTransfer_stor_path (fs : FileSystem) (net : NetOracle)
    (sp tp : String) (u v : Option String) (q : String)
    (h : Event.stor q ∈ (loginAndTransfer fs net sp tp u v).2) : q = tp := by
  rcases mem_loginAndTransfer_trace _ _ _ _ _ _ _ h with hx | hx | hx <;>
    simp_all

/-- `loginAndTransfer` never issues a store unless the server accepted the
login with the effective credentials. -/
theorem loginAndTransfer_stor_needs_login (fs : FileSystem)
    (net : NetOracle) (sp tp : String) (u v : Option String) (q : String)
    (h : Event.stor q ∈ (loginAndTransfer fs net sp tp u v).2) :
    net.loginOk (effectiveCreds u v).1 (effectiveCreds u v).2 = true := by
  unfold loginAndTransfer at h
  repeat' split at h
  all_goals simp_all

/-- `send_file_over_ftp` never issues a directory-change or
directory-create command. -/
theorem send_file_over_ftp_no_dir (fs : FileSystem) (net : NetOracle)
    (host p tf : String) (port : Nat) (t : F64) (u v : Option String) :
    ∀ e ∈ (send_file_over_ftp fs net host p tf port t u v).2,
      isDirCommand e = false := by
  unfold send_file_over_ftp
  repeat' split
  all_goals intro e he
  all_goals
    first
    | (simp_all [isDirCommand]; done)
    | (simp at he
       rcases he with rfl | rfl | rfl | rfl | he <;>
         first
         | rfl
         | (rcases mem_loginAndTransfer_trace _ _ _ _ _ _ _ he
             with rfl | rfl | rfl <;> rfl))

/-- Any store event issued by `send_file_over_ftp` stores the target folder
joined with the base name of the canonicalized source path. -/
theorem send_file_over_ftp_stor_path (fs : FileSystem) (net : NetOracle)
    (host p tf : String) (port : Nat) (t : F64) (u v : Option String)
    (q : String)
    (h : Event.stor q ∈ (send_file_over_ftp fs net host p tf port t u v).2) :
    ∃ sp fn, fs.canonicalize p = some sp ∧ fileName sp = some fn ∧
      q = joinPath tf fn := by
  unfold send_file_over_ftp at h
  repeat' split at h
  all_goals simp at h
  all_goals
    exact ⟨_, _, by assumption, by assumption,
      loginAndTransfer_stor_path _ _ _ _ _ _ _ h⟩

/-- `send_file_over_ftp` never issues a store unless the server accepted the
login with the effective credentials. -/
theorem send_file_over_ftp_stor_needs_login (fs : FileSystem)
    (net : NetOracle) (host p tf : String) (port : Nat) (t : F64)
    (u v : Option String) (q : String)
    (h : Event.stor q ∈ (send_file_over_ftp fs net host p tf port t u v).2) :
    net.loginOk (effectiveCreds u v).1 (effectiveCreds u v).2 = true := by
  unfold send_file_over_ftp at h
  repeat' split at h
  all_goals simp at h
  all_goals exact loginAndTransfer_stor_needs_login _ _ _ _ _ _ _ h

/-- In any run of `FtpSender::send_file` that reaches a protocol exchange,
the first three events are the connect and the two timeout settings with the
sender's configured timeout. -/
theorem send_file_timeout_ordering (s : FtpSender) (fs : FileSystem)
    (net : NetOracle) (p tf : String) :
    ∀ e ∈ (FtpSender.send_file s fs net p tf).2, protoExchange e = true →
      (FtpSender.send_file s fs net p tf).2.take 3 =
        [.connect (s.host ++ ":" ++ toString s.port),
         .setReadTimeout s.timeout, .setWriteTimeout s.timeout] := by
  unfold FtpSender.send_file
  repeat' split
  all_goals intro e he hp
  all_goals first
    | rfl
    | (simp_all [protoExchange]; done)
    | (simp at he
       rcases he with rfl | rfl <;> simp [protoExchange] at hp)

/-- In any run of `send_file_over_ftp` that reaches a protocol exchange, the
first three events are the connect and the two timeout settings with the
converted timeout. -/
theorem send_file_over_ftp_timeout_ordering (fs : FileSystem) (net : NetOracle)
    (host p tf : String) (port : Nat) (t : F64) (u v : Option String)
    (d : Duration) (hd : Duration.fromSecsF64? t = some d) :
    ∀ e ∈ (send_file_over_ftp fs net host p tf port t u v).2,
      protoExchange e = true →
      (send_file_over_ftp fs net host p tf port t u v).2.take 3 =
        [.connect (host ++ ":" ++ toString port),
         .setReadTimeout d, .setWriteTimeout d] := by
  unfold send_file_over_ftp
  repeat' split
  all_goals intro e he hp
  all_goals simp_all
  all_goals first
    | rfl
    | (simp_all [protoExchange]; done)
    | (rcases he with rfl | rfl <;> simp [protoExchange] at hp)

/-- `Duration::from_secs_f64` panics exactly on the non-representable
values. -/
theorem fromSecsF64_eq_none_iff (t : F64) :
    Duration.fromSecsF64? t = none ↔ durationRepresentable t = false := by
  cases t <;> simp [Duration.fromSecsF64?, durationRepresentable]

/-! The claims. -/

/-- C1: for every source path, both `FtpSender::send_file` and
`send_file_over_ftp` canonicalize and validate the local source path before
any network activity: if canonicalization fails or the resolved path is not
a regular file, the run fails with an InvalidSource-class error and the
network trace is empty (no connection to host:port is ever attempted). -/
theorem C1_validation_before_network (s : FtpSender) (fs : FileSystem)
    (net : NetOracle) (host p tf : String) (port : Nat) (t : F64)
    (u v : Option String)
    (h : fs.canonicalize p = none ∨
      ∃ sp, fs.canonicalize p = some sp ∧ fs.isFile sp = false) :
    (isInvalidSource (FtpSender.send_file s fs net p tf).1 = true ∧
      (FtpSender.send_file s fs net p tf).2 = []) ∧
    (isInvalidSource (send_file_over_ftp fs net host p tf port t u v).1 =
        true ∧
      (send_file_over_ftp fs net host p tf port t u v).2 = []) := by
  rcases h with h | ⟨sp, h1, h2⟩
  · simp [FtpSender.send_file, send_file_over_ftp, h, isInvalidSource]
  · simp [FtpSender.send_file, send_file_over_ftp, h1, h2, isInvalidSource]

/-- Witness for C1 at a concrete nonexistent source path. -/
theorem C1_validation_before_network_witness :
    (isInvalidSource
        (FtpSender.send_file sampleSender badFs okNet "nope.txt" "dir").1 =
        true ∧
      (FtpSender.send_file sampleSender badFs okNet "nope.txt" "dir").2 =
        []) ∧
    (isInvalidSource
        (send_file_over_ftp badFs okNet "h" "nope.txt" "dir" 20
          (.finite 30) none none).1 = true ∧
      (send_file_over_ftp badFs okNet "h" "nope.txt" "dir" 20
          (.finite 30) none none).2 = []) :=
  C1_validation_before_network sampleSender badFs okNet "h" "nope.txt"
    "dir" 20 (.finite 30) none none (Or.inl rfl)

/-- C2 counterexample: a run of `FtpSender::send_file` in which the store
succeeds (the STOR of the file is issued and the server accepts every
store), the quit fails, and the result is the quit error rather than
success — the quit failure is propagated, not merely logged. -/
theorem C2_quit_failure_counterexample :
    quitFailNet.putOk "f.txt" = true ∧
    Event.stor "f.txt" ∈
      (FtpSender.send_file sampleSender okFs quitFailNet "f.txt" "dir").2 ∧
    (FtpSender.send_file sampleSender okFs quitFailNet "f.txt" "dir").1 =
      .error .quitError := by
  decide

/-- C2 (amended): if the store completed successfully but the quit fails,
both variants return the quit error — the disconnect failure overturns the
otherwise-successful transfer instead of being logged only. -/
theorem C2_quit_failure_propagates (s : FtpSender) (fs : FileSystem)
    (net : NetOracle) (host p tf sp fn : String) (port : Nat)
    (t : F64) (d : Duration) (u v : Option String) (evs : List Event)
    (hc : fs.canonicalize p = some sp)
    (hf : fs.isFile sp = true)
    (hn : fileName sp = some fn)
    (hd : Duration.fromSecsF64? t = some d)
    (hco : ∀ a, net.connectOk a = true)
    (hr : net.setReadTimeoutOk = true)
    (hw : net.setWriteTimeoutOk = true)
    (hl : ∀ a b, net.loginOk a b = true)
    (he : ensure_remote_folder_exists net tf = (.ok (), evs))
    (ho : fs.openOk sp = true)
    (hp : ∀ a, net.putOk a = true)
    (hq : net.quitOk = false) :
    ((FtpSender.send_file s fs net p tf).1 = .error .quitError ∧
      Event.stor fn ∈ (FtpSender.send_file s fs net p tf).2) ∧
    ((send_file_over_ftp fs net host p tf port t u v).1 =
        .error .quitError ∧
      Event.stor (joinPath tf fn) ∈
        (send_file_over_ftp fs net host p tf port t u v).2) := by
  constructor
  · simp [FtpSender.send_file, hc, hf, hn, hco, hr, hw, hl, he, ho, hp, hq]
  · rcases hg : net.greeting with _ | m <;>
      simp [send_file_over_ftp, loginAndTransfer, hc, hf, hn, hd, hco, hr,
        hw, hg, hl, ho, hp, hq]

/-- Witness for C2 (amended) at a concrete run with a failing quit. -/
theorem C2_quit_failure_propagates_witness :
    ((FtpSender.send_file sampleSender okFs quitFailNet "f.txt" "dir").1 =
        .error .quitError ∧
      Event.stor "f.txt" ∈
        (FtpSender.send_file sampleSender okFs quitFailNet "f.txt"
          "dir").2) ∧
    ((send_file_over_ftp okFs quitFailNet "h" "f.txt" "dir" 20
        (.finite 30) none none).1 = .error .quitError ∧
      Event.stor (joinPath "dir" "f.txt") ∈
        (send_file_over_ftp okFs quitFailNet "h" "f.txt" "dir" 20
          (.finite 30) none none).2) :=
  C2_quit_failure_propagates sampleSender okFs quitFailNet "h" "f.txt"
    "dir" "/home/u/f.txt" "f.txt" 20 (.finite 30) 30 none none
    [.cwd "dir"] rfl rfl rfl rfl (fun _ => rfl) rfl rfl (fun _ _ => rfl)
    rfl rfl (fun _ => rfl) rfl

/-- C3: under Policy A, resolving the remote destination first attempts a
`CWD` to the target folder; only when it fails are `MKD` and a second `CWD`
issued, and each of those failures aborts the run with the corresponding
error; the subsequent store targets just the base name of the source file;
and when the folder already exists (the first `CWD` succeeds) no creation
command is ever issued. -/
theorem C3_ensure_and_cwd_policy (s : FtpSender) (fs : FileSystem)
    (net : NetOracle) (p tf : String) :
    (net.cwdOk tf = true →
      ensure_remote_folder_exists net tf = (.ok (), [.cwd tf]) ∧
      ∀ f, Event.mkd f ∉ (FtpSender.send_file s fs net p tf).2) ∧
    (net.cwdOk tf = false → net.mkdirOk tf = false →
      ensure_remote_folder_exists net tf =
        (.error .mkdirError, [.cwd tf, .mkd tf])) ∧
    (net.cwdOk tf = false → net.mkdirOk tf = true →
      net.cwdAfterMkdirOk tf = false →
      ensure_remote_folder_exists net tf =
        (.error .cwdError, [.cwd tf, .mkd tf, .cwd tf])) ∧
    (net.cwdOk tf = false → net.mkdirOk tf = true →
      net.cwdAfterMkdirOk tf = true →
      ensure_remote_folder_exists net tf =
        (.ok (), [.cwd tf, .mkd tf, .cwd tf])) ∧
    (∀ q, Event.stor q ∈ (FtpSender.send_file s fs net p tf).2 →
      ∃ sp, fs.canonicalize p = some sp ∧ fileName sp = some q) ∧
    (∀ e evs sp fn, fs.canonicalize p = some sp → fs.isFile sp = true →
      fileName sp = some fn →
      net.connectOk (s.host ++ ":" ++ toString s.port) = true →
      net.setReadTimeoutOk = true → net.setWriteTimeoutOk = true →
      net.loginOk (effectiveCreds s.username s.password).1
        (effectiveCreds s.username s.password).2 = true →
      ensure_remote_folder_exists net tf = (.error e, evs) →
      (FtpSender.send_file s fs net p tf).1 = .error e) := by
  refine ⟨fun hcw => ⟨ensure_trace_cwd_exists net tf hcw,
      fun f hm => send_file_no_mkd s fs net p tf hcw f hm⟩,
    fun h1 h2 => by simp [ensure_remote_folder_exists, h1, h2],
    fun h1 h2 h3 => by simp [ensure_remote_folder_exists, h1, h2, h3],
    fun h1 h2 h3 => by simp [ensure_remote_folder_exists, h1, h2, h3],
    fun q hq => send_file_stor_name s fs net p tf q hq,
    fun e evs sp fn hc hf hn hco hr hw hl he => by
      simp [FtpSender.send_file, hc, hf, hn, hco, hr, hw, hl, he]⟩

/-- Witness for C3: on a server where the folder is absent, the `MKD` is
issued and the transfer succeeds; on one where it exists, the trace has no
`MKD`; and a failing `MKD` aborts the run with the creation error. -/
theorem C3_ensure_and_cwd_policy_witness :
    (ensure_remote_folder_exists okNet "dir" = (.ok (), [.cwd "dir"]) ∧
      Event.mkd "dir" ∉
        (FtpSender.send_file sampleSender okFs okNet "f.txt" "dir").2) ∧
    ensure_remote_folder_exists cwdFailNet "dir" =
      (.ok (), [.cwd "dir", .mkd "dir", .cwd "dir"]) ∧
    (FtpSender.send_file sampleSender okFs cwdFailNet "f.txt" "dir").1 =
      .ok ∧
    (FtpSender.send_file sampleSender okFs mkdFailNet "f.txt" "dir").1 =
      .error .mkdirError := by
  refine ⟨⟨((C3_ensure_and_cwd_policy sampleSender okFs okNet "f.txt"
      "dir").1 rfl).1,
    fun hm => ((C3_ensure_and_cwd_policy sampleSender okFs okNet "f.txt"
      "dir").1 rfl).2 "dir" hm⟩,
    (C3_ensure_and_cwd_policy sampleSender okFs cwdFailNet "f.txt"
      "dir").2.2.2.1 rfl rfl rfl,
    by decide,
    (C3_ensure_and_cwd_policy sampleSender okFs mkdFailNet "f.txt"
      "dir").2.2.2.2.2 .mkdirError [.cwd "dir", .mkd "dir"]
      "/home/u/f.txt" "f.txt" rfl rfl rfl rfl rfl rfl rfl rfl⟩

/-- C4: under Policy B, no directory-change or directory-create command is
ever issued; every store stores the target folder joined with the base name
of the canonicalized source; and a missing remote folder (the server
rejecting the STOR of the joined path) surfaces as a store failure. -/
theorem C4_path_join_policy (fs : FileSystem) (net : NetOracle)
    (host p tf : String) (port : Nat) (t : F64) (u v : Option String) :
    (∀ e ∈ (send_file_over_ftp fs net host p tf port t u v).2,
      isDirCommand e = false) ∧
    (∀ q, Event.stor q ∈ (send_file_over_ftp fs net host p tf port t u v).2 →
      ∃ sp fn, fs.canonicalize p = some sp ∧ fileName sp = some fn ∧
        q = joinPath tf fn) ∧
    (∀ sp fn d, fs.canonicalize p = some sp → fs.isFile sp = true →
      fileName sp = some fn → Duration.fromSecsF64? t = some d →
      net.connectOk (host ++ ":" ++ toString port) = true →
      net.setReadTimeoutOk = true → net.setWriteTimeoutOk = true →
      net.loginOk (effectiveCreds u v).1 (effectiveCreds u v).2 = true →
      fs.openOk sp = true →
      net.putOk (joinPath tf fn) = false →
      (send_file_over_ftp fs net host p tf port t u v).1 =
        .error .putError) := by
  refine ⟨send_file_over_ftp_no_dir fs net host p tf port t u v,
    fun q hq => send_file_over_ftp_stor_path fs net host p tf port t u v
      q hq,
    fun sp fn d hc hf hn hd hco hr hw hl ho hpq => ?_⟩
  rcases hg : net.greeting with _ | m <;>
    simp [send_file_over_ftp, loginAndTransfer, hc, hf, hn, hd, hco, hr,
      hw, hg, hl, ho, hpq]

/-- Witness for C4: a concrete run of Policy B issues no `CWD`/`MKD`, its
store path is the joined path, and a rejected store yields the store
error. -/
theorem C4_path_join_policy_witness :
    isDirCommand
      (Event.stor "./f.txt") = false ∧
    (∃ sp fn, okFs.canonicalize "f.txt" = some sp ∧
      fileName sp = some fn ∧ "./f.txt" = joinPath "./" fn) ∧
    (send_file_over_ftp okFs putFailNet "h" "f.txt" "./" 20 (.finite 30)
        none none).1 = .error .putError := by
  refine ⟨(C4_path_join_policy okFs okNet "h" "f.txt" "./" 20 (.finite 30)
      none none).1 (Event.stor "./f.txt") (by decide),
    (C4_path_join_policy okFs okNet "h" "f.txt" "./" 20 (.finite 30)
      none none).2.1 "./f.txt" (by decide),
    (C4_path_join_policy okFs putFailNet "h" "f.txt" "./" 20 (.finite 30)
      none none).2.2 "/home/u/f.txt" "f.txt" 30 rfl rfl rfl rfl rfl rfl
      rfl rfl rfl rfl⟩

/-- C5: in both variants, any login issued carries exactly the provided
credentials when both username and password are present, and the literal
anonymous pair in every other case. -/
theorem C5_credential_selection (s : FtpSender) (fs fs2 : FileSystem)
    (net net2 : NetOracle) (p tf host p2 tf2 : String) (port : Nat)
    (t : F64) (u v : Option String) (u1 v1 u2 v2 : String)
    (h1 : Event.login u1 v1 ∈ (FtpSender.send_file s fs net p tf).2)
    (h2 : Event.login u2 v2 ∈
      (send_file_over_ftp fs2 net2 host p2 tf2 port t u v).2) :
    ((u1, v1) = effectiveCreds s.username s.password ∧
      (u2, v2) = effectiveCreds u v) ∧
    (∀ a b, effectiveCreds (some a) (some b) = (a, b)) ∧
    (∀ a b : Option String, a = none ∨ b = none →
      effectiveCreds a b = ("anonymous", "anonymous")) := by
  refine ⟨⟨send_file_login_creds s fs net p tf u1 v1 h1,
    send_file_over_ftp_login_creds fs2 net2 host p2 tf2 port t u v u2 v2
      h2⟩,
    fun a b => rfl, fun a b hab => ?_⟩
  rcases hab with rfl | rfl
  · cases b <;> rfl
  · cases a <;> rfl

/-- Witness for C5: a run with full credentials logs in with them and a run
with no credentials logs in as anonymous/anonymous. -/
theorem C5_credential_selection_witness :
    (("u", "p") = effectiveCreds sampleSender.username
        sampleSender.password ∧
      ("anonymous", "anonymous") =
        effectiveCreds (none : Option String) (none : Option String)) ∧
    (∀ a b, effectiveCreds (some a) (some b) = (a, b)) ∧
    (∀ a b : Option String, a = none ∨ b = none →
      effectiveCreds a b = ("anonymous", "anonymous")) :=
  C5_credential_selection sampleSender okFs okFs okNet okNet "f.txt" "dir"
    "h" "f.txt" "./" 20 (.finite 30) none none "u" "p" "anonymous"
    "anonymous" (by decide) (by decide)

/-- C6: in both variants a store command is never issued unless the server
accepted the effective credentials, and when the login is rejected the run
fails with the authentication error with no store in its trace. -/
theorem C6_no_store_before_login (s : FtpSender) (fs fs2 : FileSystem)
    (net net2 : NetOracle) (p tf host p2 tf2 : String) (port : Nat)
    (t : F64) (u v : Option String) :
    (∀ q, Event.stor q ∈ (FtpSender.send_file s fs net p tf).2 →
      net.loginOk (effectiveCreds s.username s.password).1
        (effectiveCreds s.username s.password).2 = true) ∧
    (∀ q, Event.stor q ∈
        (send_file_over_ftp fs2 net2 host p2 tf2 port t u v).2 →
      net2.loginOk (effectiveCreds u v).1 (effectiveCreds u v).2 = true) ∧
    (∀ sp fn, fs.canonicalize p = some sp → fs.isFile sp = true →
      fileName sp = some fn →
      net.connectOk (s.host ++ ":" ++ toString s.port) = true →
      net.setReadTimeoutOk = true → net.setWriteTimeoutOk = true →
      net.loginOk (effectiveCreds s.username s.password).1
        (effectiveCreds s.username s.password).2 = false →
      (FtpSender.send_file s fs net p tf).1 = .error .loginError ∧
        ∀ q, Event.stor q ∉ (FtpSender.send_file s fs net p tf).2) ∧
    (∀ sp fn d, fs2.canonicalize p2 = some sp → fs2.isFile sp = true →
      fileName sp = some fn → Duration.fromSecsF64? t = some d →
      net2.connectOk (host ++ ":" ++ toString port) = true →
      net2.setReadTimeoutOk = true → net2.setWriteTimeoutOk = true →
      net2.loginOk (effectiveCreds u v).1 (effectiveCreds u v).2 = false →
      (send_file_over_ftp fs2 net2 host p2 tf2 port t u v).1 =
          .error .loginError ∧
        ∀ q, Event.stor q ∉
          (send_file_over_ftp fs2 net2 host p2 tf2 port t u v).2) := by
  refine ⟨fun q hq => send_file_stor_needs_login s fs net p tf q hq,
    fun q hq => send_file_over_ftp_stor_needs_login fs2 net2 host p2 tf2
      port t u v q hq,
    fun sp fn hc hf hn hco hr hw hl => by
      simp [FtpSender.send_file, hc, hf, hn, hco, hr, hw, hl],
    fun sp fn d hc hf hn hd hco hr hw hl => ?_⟩
  rcases hg : net2.greeting with _ | m <;>
    simp [send_file_over_ftp, loginAndTransfer, hc, hf, hn, hd, hco, hr,
      hw, hg, hl]

/-- Witness for C6: with a server that rejects every login, the run fails
with the authentication error and its trace contains no store. -/
theorem C6_no_store_before_login_witness :
    ((FtpSender.send_file sampleSender okFs loginFailNet "f.txt" "dir").1 =
        .error .loginError ∧
      ∀ q, Event.stor q ∉
        (FtpSender.send_file sampleSender okFs loginFailNet "f.txt"
          "dir").2) ∧
    ((send_file_over_ftp okFs loginFailNet "h" "f.txt" "./" 20 (.finite 30)
        none none).1 = .error .loginError ∧
      ∀ q, Event.stor q ∉
        (send_file_over_ftp okFs loginFailNet "h" "f.txt" "./" 20
          (.finite 30) none none).2) :=
  ⟨(C6_no_store_before_login sampleSender okFs okFs loginFailNet
      loginFailNet "f.txt" "dir" "h" "f.txt" "./" 20 (.finite 30) none
      none).2.2.1 "/home/u/f.txt" "f.txt" rfl rfl rfl rfl rfl rfl rfl,
    (C6_no_store_before_login sampleSender okFs okFs loginFailNet
      loginFailNet "f.txt" "dir" "h" "f.txt" "./" 20 (.finite 30) none
      none).2.2.2 "/home/u/f.txt" "f.txt" 30 rfl rfl rfl rfl rfl rfl rfl
      rfl⟩

/-- C7: in both variants, if any protocol exchange with the server occurs
(greeting read, login, directory command, store or quit), the trace begins
with the connect immediately followed by the read-timeout and the
write-timeout being set to the configured timeout value. -/
theorem C7_timeouts_follow_connect (s : FtpSender) (fs fs2 : FileSystem)
    (net net2 : NetOracle) (p tf host p2 tf2 : String) (port : Nat)
    (t : F64) (u v : Option String) :
    (∀ e ∈ (FtpSender.send_file s fs net p tf).2, protoExchange e = true →
      (FtpSender.send_file s fs net p tf).2.take 3 =
        [.connect (s.host ++ ":" ++ toString s.port),
         .setReadTimeout s.timeout, .setWriteTimeout s.timeout]) ∧
    (∀ d, Duration.fromSecsF64? t = some d →
      ∀ e ∈ (send_file_over_ftp fs2 net2 host p2 tf2 port t u v).2,
        protoExchange e = true →
        (send_file_over_ftp fs2 net2 host p2 tf2 port t u v).2.take 3 =
          [.connect (host ++ ":" ++ toString port),
           .setReadTimeout d, .setWriteTimeout d]) :=
  ⟨send_file_timeout_ordering s fs net p tf,
    fun d hd => send_file_over_ftp_timeout_ordering fs2 net2 host p2 tf2 port
      t u v d hd⟩

/-- Witness for C7 at concrete runs that reach the login exchange. -/
theorem C7_timeouts_follow_connect_witness :
    (FtpSender.send_file sampleSender okFs okNet "f.txt" "dir").2.take 3 =
      [.connect ("h" ++ ":" ++ toString 21),
       .setReadTimeout 30, .setWriteTimeout 30] ∧
    (send_file_over_ftp okFs okNet "h" "f.txt" "./" 20 (.finite 30) none
        none).2.take 3 =
      [.connect ("h" ++ ":" ++ toString 20),
       .setReadTimeout 30, .setWriteTimeout 30] :=
  ⟨(C7_timeouts_follow_connect sampleSender okFs okFs okNet okNet "f.txt"
      "dir" "h" "f.txt" "./" 20 (.finite 30) none none).1
      (Event.login "u" "p") (by decide) (by decide),
    (C7_timeouts_follow_connect sampleSender okFs okFs okNet okNet "f.txt"
      "dir" "h" "f.txt" "./" 20 (.finite 30) none none).2 30 rfl
      (Event.login "anonymous" "anonymous") (by decide) (by decide)⟩

/-- C8: in `send_file_over_ftp` the run is entirely insensitive to the
outcome of the 220 greeting read: with every other oracle answer fixed, a
failed greeting and any received greeting produce the identical result and
identical trace, so the sequence proceeds to login and transfer exactly as
when the greeting is received. -/
theorem C8_greeting_failure_nonfatal (fs : FileSystem) (net : NetOracle)
    (g1 g2 : Option String) (host p tf : String) (port : Nat) (t : F64)
    (u v : Option String) :
    send_file_over_ftp fs { net with greeting := g1 } host p tf port t u
        v =
      send_file_over_ftp fs { net with greeting := g2 } host p tf port t
        u v := by
  unfold send_file_over_ftp
  cases g1 <;> cases g2 <;> rfl

/-- C9: constructing the sender (or running `send_file_over_ftp` on a valid
source) with a timeout that is NaN, infinite, negative, or too large for a
`Duration` panics — modelled as no result — instead of returning a
classified error; for every representable timeout the construction succeeds
and stores exactly the given host, port, converted timeout and
credentials. -/
theorem C9_timeout_panics (host p tf : String) (port : Nat)
    (u v : Option String) (t : F64) (fs : FileSystem) (net : NetOracle) :
    (FtpSender.new host port t u v = none ↔
      durationRepresentable t = false) ∧
    (∀ q : ℚ, 0 ≤ q → q < 2 ^ 64 →
      FtpSender.new host port (.finite q) u v =
        some { host := host, port := port, timeout := q,
               username := u, password := v }) ∧
    (∀ sp fn, fs.canonicalize p = some sp → fs.isFile sp = true →
      fileName sp = some fn → durationRepresentable t = false →
      send_file_over_ftp fs net host p tf port t u v = (.panicked, [])) := by
  refine ⟨?_, fun q h1 h2 => by
      simp [FtpSender.new, Duration.fromSecsF64?, h1, h2],
    fun sp fn hc hf hn hdr => by
      simp [send_file_over_ftp, hc, hf, hn,
        (fromSecsF64_eq_none_iff t).mpr hdr]⟩
  have h1 : FtpSender.new host port t u v = none ↔
      Duration.fromSecsF64? t = none := by
    unfold FtpSender.new
    rcases ht : Duration.fromSecsF64? t with _ | d <;> simp [ht]
  exact h1.trans (fromSecsF64_eq_none_iff t)

/-- Witness for C9: a NaN timeout panics in both entry points and a
representable timeout stores the configuration unchanged. -/
theorem C9_timeout_panics_witness :
    FtpSender.new "h" 21 F64.nan none none = none ∧
    FtpSender.new "h" 21 (.finite 30) none none =
      some { host := "h", port := 21, timeout := 30,
             username := none, password := none } ∧
    send_file_over_ftp okFs okNet "h" "f.txt" "./" 20 F64.nan none none =
      (.panicked, []) :=
  ⟨(C9_timeout_panics "h" "f.txt" "./" 21 none none F64.nan okFs
      okNet).1.mpr rfl,
    (C9_timeout_panics "h" "f.txt" "./" 21 none none F64.nan okFs
      okNet).2.1 30 (by norm_num) (by norm_num),
    (C9_timeout_panics "h" "f.txt" "./" 20 none none F64.nan okFs
      okNet).2.2 "/home/u/f.txt" "f.txt" rfl rfl rfl rfl⟩

/-- C10: in both variants the name stored on the server is derived from the
canonicalized (symlink-resolved) source path, not from the user-supplied
path string: every store stores the base name of the resolved path (joined
with the target folder in Policy B). -/
theorem C10_remote_name_from_canonical_path (s : FtpSender)
    (fs fs2 : FileSystem) (net net2 : NetOracle)
    (p tf host p2 tf2 : String) (port : Nat) (t : F64)
    (u v : Option String) (sp sp2 fn fn2 q q2 : String)
    (hc : fs.canonicalize p = some sp) (hn : fileName sp = some fn)
    (hc2 : fs2.canonicalize p2 = some sp2) (hn2 : fileName sp2 = some fn2)
    (h1 : Event.stor q ∈ (FtpSender.send_file s fs net p tf).2)
    (h2 : Event.stor q2 ∈
      (send_file_over_ftp fs2 net2 host p2 tf2 port t u v).2) :
    q = fn ∧ q2 = joinPath tf2 fn2 := by
  obtain ⟨sp1, hc1, hn1⟩ := send_file_stor_name s fs net p tf q h1
  obtain ⟨sp3, fn3, hc3, hn3, hq3⟩ :=
    send_file_over_ftp_stor_path fs2 net2 host p2 tf2 port t u v q2 h2
  rw [hc] at hc1
  rw [hc2] at hc3
  cases Option.some.inj hc1
  cases Option.some.inj hc3
  rw [hn] at hn1
  rw [hn2] at hn3
  cases Option.some.inj hn1
  cases Option.some.inj hn3
  exact ⟨rfl, hq3⟩

/-- Witness for C10: uploading through the symlink `link.txt` (resolving to
`/data/target.txt`) stores the name `target.txt` of the resolved target,
not the name the caller passed. -/
theorem C10_remote_name_from_canonical_path_witness :
    Event.stor "target.txt" ∈
      (FtpSender.send_file sampleSender okFs okNet "link.txt" "dir").2 ∧
    Event.stor "./target.txt" ∈
      (send_file_over_ftp okFs okNet "h" "link.txt" "./" 20 (.finite 30)
        none none).2 ∧
    ("target.txt" = "target.txt" ∧
      "./target.txt" = joinPath "./" "target.txt") :=
  ⟨by decide, by decide,
    C10_remote_name_from_canonical_path sampleSender okFs okFs okNet okNet
      "link.txt" "dir" "h" "link.txt" "./" 20 (.finite 30) none none
      "/data/target.txt" "/data/target.txt" "target.txt" "target.txt"
      "target.txt" "./target.txt" rfl rfl rfl rfl (by decide) (by decide)⟩

end FtpFileSender
